/-
Verification of the page presentation and interaction engine of a terminal
document viewer (termpdf.py) against its natural-language specification.

The Python source is shallowly embedded: page indices and key codes are Int
(matching Python ints), zoom factors are exact rationals, terminal output is
modelled as a trace of graphics-command frames, and the blocking read of a
confirmed-display response is modelled as a function of the byte stream
supplied by the terminal (returning none when the two-byte terminator never
arrives, i.e. the Python loop would block forever).

External collaborators (the fitz document engine's rendering and text
extraction, zlib compression, curses drawing, the neovim bridge) are inputs:
rendered page dimensions, pixmap payloads and terminal response bytes are
parameters, and the compression function is an explicit argument.
-/
import Mathlib

namespace Termpdf

/-! ## Graphics command values

A Python dict used as a graphics command maps short string keys to either a
string or an int value.  Python dicts preserve insertion order; assignment to
an existing key updates in place, assignment to a fresh key appends. -/

/-- A scalar value in a graphics command dict: Python str or int. -/
inductive V where
  | s (x : String)
  | i (x : Int)
  deriving DecidableEq, Repr

/-- An insertion-ordered string-keyed dict, as used for graphics commands. -/
abbrev Cmd := List (String × V)

/-- Python dict assignment `c[k] = v`: update in place if `k` is present,
otherwise append at the end (insertion order is preserved). -/
def dictSet : Cmd → String → V → Cmd
  | [], k, v => [(k, v)]
  | (k', v') :: rest, k, v =>
      if k' = k then (k, v) :: rest else (k', v') :: dictSet rest k v

/-- Python dict lookup `c[k]`, returning none when the key is absent. -/
def dictGet : Cmd → String → Option V
  | [], _ => none
  | (k', v') :: rest, k => if k' = k then some v' else dictGet rest k

/-- One graphics escape-sequence frame written to the terminal: the key=value
command pairs and the optional payload chunk (`write_gr_cmd`). -/
structure Ev where
  cmd : Cmd
  payload : Option (List Nat)
  deriving DecidableEq, Repr

/-! ## Base64 and chunked transfer (`standard_b64encode`, `write_chunked`) -/

/-- ASCII code of the standard base64 digit with index `c` (0..63). -/
def b64char (c : Nat) : Nat :=
  if c < 26 then 65 + c
  else if c < 52 then 97 + (c - 26)
  else if c < 62 then 48 + (c - 52)
  else if c = 62 then 43
  else 47

/-- Standard base64 encoding of a byte list (`base64.standard_b64encode`):
groups of three bytes become four digits; a trailing group of two or one
bytes is padded with one or two `=` (ASCII 61). -/
def b64encode : List Nat → List Nat
  | a :: b :: c :: rest =>
      let n := (a % 256) * 65536 + (b % 256) * 256 + c % 256
      b64char (n / 262144 % 64) :: b64char (n / 4096 % 64) ::
        b64char (n / 64 % 64) :: b64char (n % 64) :: b64encode rest
  | [a, b] =>
      let n := ((a % 256) * 256 + b % 256) * 4
      [b64char (n / 4096 % 64), b64char (n / 64 % 64), b64char (n % 64), 61]
  | [a] =>
      let n := (a % 256) * 16
      [b64char (n / 64 % 64), b64char (n % 64), 61, 61]
  | [] => []

/-- The `while data:` loop of `write_chunked`: slice off 4096 encoded bytes,
set the more-chunks flag `m` (1 when data remains, else 0), emit the frame,
then `cmd.clear()` so later frames carry only the `m` key.  Every iteration
consumes at least one byte, so the loop runs at most `data.length` times;
the first argument is that explicit iteration bound (structural recursion
on the bound keeps the function computable by the kernel), and the
fuel-exhausted case is unreachable whenever the bound is sufficient. -/
def chunkLoop : Nat → Cmd → List Nat → List Ev
  | _, _, [] => []
  | 0, _, _ :: _ => []
  | fuel + 1, cmd, b :: bs =>
      let data := b :: bs
      let chunk := data.take 4096
      let rest := data.drop 4096
      let m : Int := if rest = [] then 0 else 1
      ⟨dictSet cmd "m" (V.i m), some chunk⟩ :: chunkLoop fuel [] rest

/-- The chunk-emission loop of `write_chunked`, with the iteration bound
instantiated to the length of the remaining data. -/
def chunkFrames (cmd : Cmd) (data : List Nat) : List Ev :=
  chunkLoop data.length cmd data

/-- `write_chunked(cmd, data)`: unless the format key `f` equals 100 the
payload is zlib-compressed (the compression function is an external
collaborator, passed in) and the compression marker `o=z` is recorded; the
result is base64-encoded and emitted in 4096-byte frames.  Returns the frame
trace.  (When the key `f` is absent Python would raise KeyError; every caller
in the source sets `f` first.) -/
def write_chunked (compress : List Nat → List Nat) (cmd : Cmd) (data : List Nat) :
    List Ev :=
  let pair :=
    if dictGet cmd "f" = some (V.i 100) then (cmd, data)
    else (dictSet cmd "o" (V.s "z"), compress data)
  chunkFrames pair.1 (b64encode pair.2)

/-! ## Confirmed response (`write_gr_cmd_with_response`) -/

/-- The response-accumulation loop: read one byte at a time, appending to the
accumulator, until the last two bytes are ESC backslash (27, 92).  Returns
the consumed response, or none when the stream is exhausted before the
terminator appears (the Python loop would then block forever). -/
def readResp (acc : List Nat) : List Nat → Option (List Nat)
  | [] => none
  | b :: rest =>
      let acc' := acc ++ [b]
      if acc'.reverse.take 2 = [92, 27] then some acc' else readResp acc' rest

/-- Whether a byte list begins with the two bytes of `OK` (79, 75). -/
def startsWithOK : List Nat → Bool
  | 79 :: 75 :: _ => true
  | _ => false

/-- Whether `OK` (bytes 79, 75) occurs as a contiguous substring. -/
def containsOK : List Nat → Bool
  | [] => false
  | a :: rest => startsWithOK (a :: rest) || containsOK rest

/-- Success of a confirmed graphics command: the accumulated response (read
up to the terminator) contains the substring `OK` (bytes 79, 75). -/
def write_gr_cmd_with_response (stream : List Nat) : Option Bool :=
  (readResp [] stream).map (fun r => containsOK r)

/-! ## Page render cache (`Page_State`) and document state (`Document`) -/

/-- The value stored in a page state's `factor` field: the constructor puts
the placeholder pair `(1,1)` there; `display_page` overwrites it with the
scalar zoom factor (a Python float, embedded as an exact rational). -/
inductive Factor where
  | pair (a b : ℚ)
  | scalar (q : ℚ)
  deriving DecidableEq

/-- One cache entry per page (`Page_State.__init__`). -/
structure Page_State where
  number : Nat
  stale : Bool
  factor : Factor
  place : Int × Int × Int × Int
  crop : Option (ℚ × ℚ × ℚ × ℚ)
  deriving DecidableEq

/-- `Page_State(p)`: every freshly constructed page state is stale. -/
def Page_State.init (p : Nat) : Page_State :=
  { number := p, stale := true, factor := Factor.pair 1 1,
    place := (0, 0, 40, 40), crop := none }

/-- A table-of-contents entry from the document engine: level, title and
1-based target page, as returned by `getToC()`. -/
abbrev Toc := Int × String × Int

/-- The viewer-relevant state of a `Document`: navigation fields, display
toggles and the page-state table.  The underlying fitz document is an
external collaborator; its table of contents is carried as the constant
field `toc`, and its page count determines `pages` (last index) at open. -/
structure Document where
  page : Int
  prevpage : Int
  pages : Int
  first_page_offset : Int
  chapter : Int
  rotation : Int
  fontsize : Int
  autocrop : Bool
  alpha : Bool
  invert : Bool
  tint : Bool
  toc : List Toc
  page_states : List Page_State

/-- `Document.__init__` for a document the engine reports to have
`pageCount` pages: `pages = pageCount - 1` and one fresh (stale) page state
per index in `range(0, pages + 1)`. -/
def Document.init (pageCount : Nat) (toc : List Toc) : Document :=
  { page := 0, prevpage := 0, pages := (pageCount : Int) - 1,
    first_page_offset := 1, chapter := 0, rotation := 0, fontsize := 12,
    autocrop := false, alpha := false, invert := false, tint := false,
    toc := toc,
    page_states := (List.range pageCount).map Page_State.init }

/-- `goto_page`: store the previous page, then clamp the target to
`[0, pages]` (the upper test runs first, exactly as in the source). -/
def Document.goto_page (d : Document) (p : Int) : Document :=
  let d := { d with prevpage := d.page }
  if p > d.pages then { d with page := d.pages }
  else if p < 0 then { d with page := 0 }
  else { d with page := p }

/-- `page_to_logical`: a missing argument (Python `None`) means the current
page; the logical number adds the first-page offset. -/
def Document.page_to_logical (d : Document) (p : Option Int) : Int :=
  (match p with
   | none => d.page
   | some q => q) + d.first_page_offset

/-- `logical_to_page`: the Python guard is `if not p`, so both a missing
argument and the argument 0 are replaced by the current page before the
offset is subtracted. -/
def Document.logical_to_page (d : Document) (p : Option Int) : Int :=
  (match p with
   | none => d.page
   | some q => if q = 0 then d.page else q) - d.first_page_offset

/-- `goto_logical_page`: translate and then clamp via `goto_page`. -/
def Document.goto_logical_page (d : Document) (p : Int) : Document :=
  d.goto_page (d.logical_to_page (some p))

/-- `next_page(count)`. -/
def Document.next_page (d : Document) (count : Int) : Document :=
  d.goto_page (d.page + count)

/-- `prev_page(count)`. -/
def Document.prev_page (d : Document) (count : Int) : Document :=
  d.goto_page (d.page - count)

/-- `goto_chap(n)`: clamp `n` into `[0, len(toc)]` (one past the last
index!), record it as the current chapter, then try to jump to the clamped
entry's target page; an out-of-range lookup (in particular `n = len(toc)`,
or any lookup in an empty toc) raises IndexError and the handler jumps to
page 0 instead. -/
def Document.goto_chap (d : Document) (n : Int) : Document :=
  let toc := d.toc
  let n := if n > (toc.length : Int) then (toc.length : Int)
           else if n < 0 then 0 else n
  let d := { d with chapter := n }
  match toc.get? n.toNat with
  | some e => d.goto_page (e.2.2 - 1)
  | none => d.goto_page 0

/-- `next_chap(count)`. -/
def Document.next_chap (d : Document) (count : Int) : Document :=
  d.goto_chap (d.chapter + count)

/-- `prev_chap(count)`. -/
def Document.prev_chap (d : Document) (count : Int) : Document :=
  d.goto_chap (d.chapter - count)

/-- `mark_all_pages_stale`: set the stale flag of every page state. -/
def Document.mark_all_pages_stale (d : Document) : Document :=
  { d with page_states := d.page_states.map (fun s => { s with stale := true }) }

/-- The graphics command built by `clear_page(p)`:
`{'a': 'd', 'd': 'a', 'i': p + 1}`, sent fire-and-forget. -/
def clear_page_cmd (p : Int) : Cmd :=
  [("a", V.s "d"), ("d", V.s "a"), ("i", V.i (p + 1))]

/-! ## Display orchestrator (`display_page`) -/

/-- Terminal geometry as measured by `screen.get_size` (the TIOCGWINSZ
ioctl is an external collaborator, so the fields are inputs here). -/
structure Screen where
  rows : Int
  cols : Int
  width : Int
  height : Int
  cell_width : Int
  cell_height : Int

/-- Python `int()` applied to a rational: truncation toward zero. -/
def pyInt (q : ℚ) : Int :=
  if 0 ≤ q then ⌊q⌋ else -⌊-q⌋

/-- Update the page state at index `p` in place (Python mutates the object
obtained from `self.page_states[p]`; an out-of-range index would raise). -/
def Document.setPS (d : Document) (p : Nat) (f : Page_State → Page_State) :
    Document :=
  { d with page_states :=
      d.page_states.set p (f (d.page_states.getD p (Page_State.init p))) }

/-- External inputs consumed by one `display_page` call: the page bound
reported by the engine (after any cropping), the rendered pixmap's size and
sample bytes, and the terminal's response byte stream for the confirmed
display command. -/
structure DPIn where
  pw : ℚ
  ph : ℚ
  pixw : Int
  pixh : Int
  samples : List Nat
  resp : List Nat

/-- The state of one `display_page` call at the point it ends: the mutated
document, the trace of graphics frames written, and whether the
render-and-transmit step ran (the `page_state.stale` branch). -/
structure DPRes where
  doc : Document
  events : List Ev
  rendered : Bool

/-- How a `display_page` call ends: a normal return; an everlasting block
on the confirmed-display read (the response terminator never arrives); or
the NameError the interpreter raises on the failure path, where the code
assigns to a name `bar` that is not defined in `display_page`'s scope (it
is only a local of `view`), so the exception propagates with the stale
flag left true and the final unconditional `stale = False` never reached. -/
inductive DPOut where
  | ok (res : DPRes)
  | hang
  | nameError (res : DPRes)

/-- `display_page(scr, p, display)`.  Layout: the drawable height excludes
one status-bar row; the zoom factor is `min(dw/pw, dh/ph)` with width and
height swapped for 90/270 rotation; the centered placement is converted to
cells by truncating division and stored, with the factor, in the page
state.  If the state is stale the pixmap is transmitted via `write_chunked`
(format key 32 with alpha else 24).  If `display` is set the previous page
is cleared first, then the confirmed display command is issued: when the
read never sees the response terminator the call blocks forever (`hang`);
when the response lacks `OK` the failure branch sets the stale flag and
then evaluates `bar.message`, but `bar` is undefined in this scope, so a
NameError is raised there and the closing `stale = False` line is never
executed (`nameError`, carrying the state at the raise).  On every path
that does return, the stale flag ends unconditionally cleared.  Cursor
movement and `swallow_keys` are terminal I/O with no document effect and
are not modelled. -/
def Document.display_page (compress : List Nat → List Nat) (d : Document)
    (scr : Screen) (inp : DPIn) (p : Nat) (display : Bool) :
    DPOut :=
  let ps := d.page_states.getD p (Page_State.init p)
  let dw : ℚ := scr.width
  let dh : ℚ := scr.height - scr.cell_height
  let dims := if d.rotation = 0 ∨ d.rotation = 180
              then (inp.pw, inp.ph) else (inp.ph, inp.pw)
  let pw := dims.1
  let ph := dims.2
  let factor := min (dw / pw) (dh / ph)
  let zw := factor * pw
  let zh := factor * ph
  let pix_x := dw / 2 - zw / 2
  let pix_y := dh / 2 - zh / 2
  let l_col := pyInt (pix_x / scr.cell_width)
  let t_row := pyInt (pix_y / scr.cell_height)
  let r_col := l_col + pyInt (zw / scr.cell_width)
  let b_row := t_row + pyInt (zh / scr.cell_height)
  let d := d.setPS p (fun s =>
    { s with factor := Factor.scalar factor,
             place := (l_col, t_row, r_col, b_row) })
  let rendered := ps.stale
  let evs :=
    if ps.stale then
      let cmd0 : Cmd := [("i", V.i ((p : Int) + 1)), ("t", V.s "d"),
                         ("s", V.i inp.pixw), ("v", V.i inp.pixh)]
      let cmd0 := dictSet cmd0 "f" (V.i (if d.alpha then 32 else 24))
      write_chunked compress cmd0 inp.samples
    else []
  if display then
    let evClear : Ev := ⟨clear_page_cmd d.prevpage, none⟩
    let evDisp : Ev := ⟨[("a", V.s "p"), ("i", V.i ((p : Int) + 1)),
                         ("z", V.i (-1))], none⟩
    match write_gr_cmd_with_response inp.resp with
    | none => DPOut.hang
    | some success =>
        if success then
          let d := d.setPS p (fun s => { s with stale := false })
          DPOut.ok ⟨d, evs ++ [evClear, evDisp], rendered⟩
        else
          let d := d.setPS p (fun s => { s with stale := true })
          DPOut.nameError ⟨d, evs ++ [evClear, evDisp], rendered⟩
  else
    let d := d.setPS p (fun s => { s with stale := false })
    DPOut.ok ⟨d, evs, rendered⟩

/-! ## Key bindings (`shortcuts`)

Key codes are curses `getch` integers: printable ASCII plus the ncurses
constants KEY_DOWN=258, KEY_UP=259, KEY_LEFT=260, KEY_RIGHT=261,
KEY_ENTER=343, KEY_RESIZE=410. -/

def GOTO_PAGE : List Int := [71]
def GOTO : List Int := [103]
def NEXT_PAGE : List Int := [106, 258, 32]
def PREV_PAGE : List Int := [107, 259]
def NEXT_CHAP : List Int := [108, 261]
def PREV_CHAP : List Int := [104, 260]
def HINTS : List Int := [102]
def OPEN : List Int := [343, 261, 10]
def SHOW_TOC : List Int := [116]
def SHOW_META : List Int := [77]
def SHOW_URLS : List Int := [117]
def TOGGLE_TEXT_MODE : List Int := [84]
def ROTATE_CW : List Int := [114]
def ROTATE_CCW : List Int := [82]
def VISUAL_MODE : List Int := [118]
def YANK : List Int := [121]
def SEND_NOTE : List Int := [110]
def TOGGLE_AUTOCROP : List Int := [99]
def TOGGLE_ALPHA : List Int := [97]
def TOGGLE_INVERT : List Int := [105]
def TOGGLE_TINT : List Int := [100]
def INC_FONT : List Int := [43]
def DEC_FONT : List Int := [45]
def REFRESH : List Int := [18, 410]
def QUIT : List Int := [3, 113]
def DEBUG : List Int := [68]

/-! ## Command dispatcher (the `view` loop) -/

/-- Numeric value of the accumulated digit key codes (`int(count_string)`). -/
def digitsVal (ds : List Int) : Int :=
  ds.foldl (fun a d => a * 10 + (d - 48)) 0

/-- Dispatcher state between two key events of the `view` loop: the open
document, the digit-prefix buffer and the chord stack (which starts as the
sentinel `[0]` and accumulates printable key codes). -/
structure ViewState where
  doc : Document
  count_string : List Int
  stack : List Int

/-- The branches of `view` that hand control to a nested interactive loop
or to an external collaborator.  Each consumes its own input and returns
the possibly-mutated document; they are inputs of the dispatcher model.
`set_layout` receives the optional new fontsize (`None` for a refresh). -/
structure Oracle where
  show_toc : Document → Document
  show_meta : Document → Document
  show_urls : Document → Document
  visual : Document → Document
  send : Document → Document
  set_layout : Document → Option Int → Document

/-- One iteration of the `view` dispatch (everything after `getch`): a
printable key (48..256) is first pushed on the chord stack; the count is
read from the digit buffer (empty means 1); then the if/elif chain runs.
Returns `none` when the QUIT branch exits the program.  The two-key
"go to start" test is exactly the source's
`stack[0] in keys.GOTO and key in keys.GOTO` (the head of the stack).
The top-of-loop `display_page` call of the next iteration is not part of
this function. -/
def view_step (orc : Oracle) (st : ViewState) (key : Int) :
    Option ViewState :=
  let st := if 48 ≤ key ∧ key < 257
            then { st with stack := st.stack ++ [key] } else st
  let count : Int := if st.count_string = [] then 1
                     else digitsVal st.count_string
  let d := st.doc
  if key ∈ REFRESH then
    some { st with doc := (orc.set_layout d none).mark_all_pages_stale }
  else if key = 27 then
    some { st with count_string := [], stack := [0] }
  else if 48 ≤ key ∧ key < 58 then
    some { st with count_string := st.count_string ++ [key] }
  else if key ∈ QUIT then
    none
  else if key ∈ GOTO_PAGE then
    let p := if st.count_string = [] then d.page_to_logical (some d.pages)
             else count
    some ⟨d.goto_logical_page p, [], [0]⟩
  else if key ∈ NEXT_PAGE then
    some ⟨d.next_page count, [], [0]⟩
  else if key ∈ PREV_PAGE then
    some ⟨d.prev_page count, [], [0]⟩
  else if key ∈ NEXT_CHAP then
    some ⟨d.next_chap count, [], [0]⟩
  else if key ∈ PREV_CHAP then
    some ⟨d.prev_chap count, [], [0]⟩
  else if st.stack.headD 0 ∈ GOTO ∧ key ∈ GOTO then
    some ⟨d.goto_page 0, [], [0]⟩
  else if key ∈ ROTATE_CW then
    some ⟨({ d with rotation := (d.rotation + 90 * count) % 360
           : Document }).mark_all_pages_stale, [], [0]⟩
  else if key ∈ ROTATE_CCW then
    some ⟨({ d with rotation := (d.rotation - 90 * count) % 360
           : Document }).mark_all_pages_stale, [], [0]⟩
  else if key ∈ TOGGLE_AUTOCROP then
    some ⟨({ d with autocrop := !d.autocrop : Document }).mark_all_pages_stale,
          [], [0]⟩
  else if key ∈ TOGGLE_ALPHA then
    some ⟨({ d with alpha := !d.alpha : Document }).mark_all_pages_stale,
          [], [0]⟩
  else if key ∈ TOGGLE_INVERT then
    some ⟨({ d with invert := !d.invert : Document }).mark_all_pages_stale,
          [], [0]⟩
  else if key ∈ TOGGLE_TINT then
    some ⟨({ d with tint := !d.tint : Document }).mark_all_pages_stale,
          [], [0]⟩
  else if key ∈ SHOW_TOC then
    some ⟨orc.show_toc d, [], [0]⟩
  else if key ∈ SHOW_META then
    some ⟨orc.show_meta d, [], [0]⟩
  else if key ∈ SHOW_URLS then
    some ⟨orc.show_urls d, [], [0]⟩
  else if key ∈ TOGGLE_TEXT_MODE then
    some ⟨d, [], [0]⟩
  else if key ∈ INC_FONT then
    some ⟨(orc.set_layout d (some (d.fontsize + count * 2))).mark_all_pages_stale,
          [], [0]⟩
  else if key ∈ DEC_FONT then
    some ⟨(orc.set_layout d (some (d.fontsize - count * 2))).mark_all_pages_stale,
          [], [0]⟩
  else if key ∈ VISUAL_MODE then
    some ⟨orc.visual d, [], [0]⟩
  else if key ∈ SEND_NOTE then
    some ⟨orc.send d, [], [0]⟩
  else
    some st

/-! ## Overlay list browser (the selection state machine shared by
`show_toc`, `show_meta` and `show_urls`) -/

/-- Selection state of an overlay list: highlighted index and scroll
offset `j` (both Python ints). -/
structure OverlayState where
  index : Int
  j : Int
  deriving DecidableEq, Repr

/-- Outcome of one key event inside an overlay loop. -/
inductive OvOut where
  | cont (st : OverlayState)
  | close
  | opened (idx : Int)
  | quit
  deriving DecidableEq, Repr

/-- The scroll adjustment at the bottom of each overlay loop iteration:
the offset trails the selection by at most one line per step. -/
def overlayAdjust (h : Int) (st : OverlayState) : OverlayState :=
  let j := if st.index > st.j + (h - 5) then st.j + 1 else st.j
  let j := if st.index < j then j - 1 else j
  { st with j := j }

/-- One key event of an overlay list loop over `len` items in a window of
height `h`; `closeKey` is the overlay's own toggle key and `canOpen` is
false only for the metadata overlay (whose OPEN branch is `pass`).
REFRESH redraws (its document effects live in the enclosing loop model and
do not touch the selection); next/prev move the selection by exactly one,
clamped; any other key (digits included) falls through to the scroll
adjustment with the selection unchanged. -/
def overlay_step (closeKey : Int) (canOpen : Bool) (len : Nat) (h : Int)
    (st : OverlayState) (key : Int) : OvOut :=
  if key ∈ REFRESH then OvOut.cont (overlayAdjust h st)
  else if key ∈ QUIT then OvOut.quit
  else if key = 27 ∨ key = closeKey then OvOut.close
  else if key ∈ NEXT_PAGE then
    OvOut.cont (overlayAdjust h { st with index := min ((len : Int) - 1) (st.index + 1) })
  else if key ∈ PREV_PAGE then
    OvOut.cont (overlayAdjust h { st with index := max 0 (st.index - 1) })
  else if key ∈ OPEN then
    if canOpen then OvOut.opened st.index
    else OvOut.cont (overlayAdjust h st)
  else OvOut.cont (overlayAdjust h st)

/-- Run an overlay loop over a list of key events, stopping (with the
selection state frozen) as soon as an event leaves the loop. -/
def overlay_run (closeKey : Int) (canOpen : Bool) (len : Nat) (h : Int)
    (st : OverlayState) : List Int → OverlayState
  | [] => st
  | k :: ks =>
      match overlay_step closeKey canOpen len h st k with
      | OvOut.cont st' => overlay_run closeKey canOpen len h st' ks
      | _ => st

/-! ## Concrete fixtures used by witnesses and concrete evaluations -/

/-- An oracle whose nested loops leave the document unchanged (their input
streams immediately close the overlay); used where the oracle is irrelevant. -/
def trivOracle : Oracle :=
  ⟨id, id, id, id, id, fun d _ => d⟩

/-- A freshly opened 5-page document moved to page 3, dispatcher at rest. -/
def st5 : ViewState := ⟨{ Document.init 5 [] with page := 3 }, [], [0]⟩

/-- A freshly opened 10-page document with `--first-page 5`. -/
def doc6 : Document := { Document.init 10 [] with first_page_offset := 5 }

/-- A 10-page document with `--first-page 5` currently on page 7. -/
def d8 : Document :=
  { Document.init 10 [] with page := 7, first_page_offset := 5 }

/-- A freshly opened 2-page document on page 1 (previous page 0). -/
def d1doc : Document := { Document.init 2 [] with page := 1 }

/-- A 10x11-cell terminal, 10-pixel square cells. -/
def scr1 : Screen := ⟨11, 10, 100, 110, 10, 10⟩

/-- Render inputs for a 1x1 page whose confirmed-display response is the
three bytes `e ESC backslash`: terminated, but without the substring OK. -/
def inp1 : DPIn := ⟨1, 1, 1, 1, [0], [101, 27, 92]⟩

/-- Render inputs whose confirmed-display response is `OK ESC backslash`. -/
def inpOK : DPIn := ⟨1, 1, 1, 1, [0], [79, 75, 27, 92]⟩

/-- The result of displaying page 1 of `d1doc` with an OK response (the
first call of the repeated-display scenario). -/
def res3 : DPRes :=
  match d1doc.display_page id scr1 inpOK 1 true with
  | DPOut.ok res => res
  | _ => ⟨d1doc, [], false⟩

/-! ## Helper lemmas -/

theorem mark_all_stale_spec (d : Document) :
    ∀ ps ∈ d.mark_all_pages_stale.page_states, ps.stale = true := by
  intro ps hps
  simp only [Document.mark_all_pages_stale, List.mem_map] at hps
  obtain ⟨a, _, rfl⟩ := hps
  rfl

theorem list_getD_set_self {α : Type _} (l : List α) (i : Nat) (a dflt : α)
    (h : i < l.length) : (l.set i a).getD i dflt = a := by
  induction l generalizing i with
  | nil => simp at h
  | cons x xs ih =>
      cases i with
      | zero => rfl
      | succ n =>
          simp only [List.set_cons_succ, List.getD_cons_succ]
          exact ih n (by simpa using h)

theorem setPS_length (d : Document) (p : Nat) (f : Page_State → Page_State) :
    (d.setPS p f).page_states.length = d.page_states.length := by
  simp [Document.setPS]

theorem setPS_getD_self (d : Document) (p : Nat) (f : Page_State → Page_State)
    (hp : p < d.page_states.length) :
    (d.setPS p f).page_states.getD p (Page_State.init p) =
      f (d.page_states.getD p (Page_State.init p)) := by
  simp only [Document.setPS]
  exact list_getD_set_self _ _ _ _ hp

theorem display_page_spec (compress : List Nat → List Nat) (d : Document)
    (scr : Screen) (inp : DPIn) (p : Nat) (display : Bool) (res : DPRes)
    (h : d.display_page compress scr inp p display = DPOut.ok res) :
    res.rendered = (d.page_states.getD p (Page_State.init p)).stale ∧
    res.doc.page_states.length = d.page_states.length ∧
    (p < d.page_states.length →
      (res.doc.page_states.getD p (Page_State.init p)).stale = false) ∧
    (res.rendered = false → ∀ e ∈ res.events, e.payload = none) := by
  cases display with
  | false =>
      simp only [Document.display_page, Bool.false_eq_true, if_false,
        DPOut.ok.injEq] at h
      subst h
      refine ⟨rfl, by simp [setPS_length], ?_, ?_⟩
      · intro hp
        rw [setPS_getD_self _ _ _ (by simpa [setPS_length] using hp)]
      · intro hrend e he
        simp only at hrend
        simp only [hrend, Bool.false_eq_true, if_false] at he
        simp at he
  | true =>
      cases hw : write_gr_cmd_with_response inp.resp with
      | none =>
          simp only [Document.display_page, eq_self_iff_true, if_true,
            hw] at h
          exact DPOut.noConfusion h
      | some success =>
          cases success with
          | false =>
              simp only [Document.display_page, eq_self_iff_true, if_true,
                Bool.false_eq_true, if_false, hw] at h
              exact DPOut.noConfusion h
          | true =>
              simp only [Document.display_page, eq_self_iff_true, if_true,
                hw, DPOut.ok.injEq] at h
              subst h
              refine ⟨rfl, by simp [setPS_length], ?_, ?_⟩
              · intro hp
                rw [setPS_getD_self _ _ _ (by simpa [setPS_length] using hp)]
              · intro hrend e he
                simp only at hrend
                simp only [hrend, Bool.false_eq_true, if_false,
                  List.nil_append] at he
                simp only [List.mem_cons, List.not_mem_nil, or_false] at he
                rcases he with rfl | rfl <;> rfl

theorem chunkLoop_congr (f1 : Nat) :
    ∀ (f2 : Nat) (data : List Nat) (cmd : Cmd),
      data.length ≤ f1 → data.length ≤ f2 →
      chunkLoop f1 cmd data = chunkLoop f2 cmd data := by
  induction f1 with
  | zero =>
      intro f2 data cmd h1 h2
      have hd : data = [] := List.eq_nil_of_length_eq_zero (Nat.le_zero.mp h1)
      subst hd
      cases f2 <;> rfl
  | succ f1 ih =>
      intro f2 data cmd h1 h2
      cases data with
      | nil => cases f2 <;> rfl
      | cons b bs =>
          cases f2 with
          | zero => simp at h2
          | succ f2 =>
              simp only [chunkLoop]
              congr 1
              refine ih f2 ((b :: bs).drop 4096) [] ?_ ?_ <;>
                · simp only [List.length_drop, List.length_cons] at h1 h2 ⊢
                  omega

theorem chunkFrames_nil (cmd : Cmd) : chunkFrames cmd [] = [] := rfl

theorem chunkFrames_cons (cmd : Cmd) (data : List Nat) (hd : data ≠ []) :
    chunkFrames cmd data =
      ⟨dictSet cmd "m" (V.i (if data.drop 4096 = [] then 0 else 1)),
        some (data.take 4096)⟩ :: chunkFrames [] (data.drop 4096) := by
  obtain ⟨b, bs, rfl⟩ := List.exists_cons_of_ne_nil hd
  show chunkLoop (b :: bs).length cmd (b :: bs) = _
  simp only [List.length_cons, chunkLoop]
  congr 1
  refine chunkLoop_congr bs.length _ ((b :: bs).drop 4096) [] ?_ ?_ <;>
    · simp only [List.length_drop, List.length_cons]
      omega

theorem chunkFrames_eq_nil (cmd : Cmd) (data : List Nat) :
    chunkFrames cmd data = [] ↔ data = [] := by
  constructor
  · intro h
    by_cases hd : data = []
    · exact hd
    · rw [chunkFrames_cons cmd data hd] at h
      simp at h
  · intro h
    subst h
    exact chunkFrames_nil cmd

theorem chunkFrames_length_aux (n : Nat) :
    ∀ data : List Nat, data.length ≤ n → ∀ cmd : Cmd,
      (chunkFrames cmd data).length = (data.length + 4095) / 4096 := by
  induction n with
  | zero =>
      intro data h cmd
      have hd : data = [] := List.eq_nil_of_length_eq_zero (Nat.le_zero.mp h)
      subst hd
      simp [chunkFrames_nil]
  | succ n ih =>
      intro data h cmd
      by_cases hd : data = []
      · subst hd
        simp [chunkFrames_nil]
      · have hpos : data.length ≠ 0 :=
          fun hz => hd (List.eq_nil_of_length_eq_zero hz)
        rw [chunkFrames_cons cmd data hd, List.length_cons,
          ih (data.drop 4096) (by simp [List.length_drop]; omega) []]
        simp only [List.length_drop]
        omega

theorem chunkFrames_length (cmd : Cmd) (data : List Nat) :
    (chunkFrames cmd data).length = (data.length + 4095) / 4096 :=
  chunkFrames_length_aux data.length data (Nat.le_refl _) cmd

theorem chunkFrames_getElem (i : Nat) :
    ∀ (data : List Nat) (cmd : Cmd), i < (chunkFrames cmd data).length →
      (chunkFrames cmd data)[i]? =
        some ⟨dictSet (if i = 0 then cmd else []) "m"
            (V.i (if i + 1 < (chunkFrames cmd data).length then 1 else 0)),
          some ((data.drop (4096 * i)).take 4096)⟩ := by
  induction i with
  | zero =>
      intro data cmd hi
      have hd : data ≠ [] := by
        intro h
        subst h
        simp [chunkFrames_nil] at hi
      rw [chunkFrames_cons cmd data hd] at hi ⊢
      simp only [List.getElem?_cons_zero, List.length_cons, Nat.mul_zero,
        List.drop_zero, Option.some.injEq, Ev.mk.injEq, reduceIte]
      refine ⟨?_, trivial⟩
      by_cases hrest : data.drop 4096 = []
      · rw [hrest]
        simp [chunkFrames_nil]
      · have hne : chunkFrames ([] : Cmd) (data.drop 4096) ≠ [] :=
          fun h => hrest ((chunkFrames_eq_nil _ _).mp h)
        have hpos : 0 < (chunkFrames ([] : Cmd) (data.drop 4096)).length :=
          List.length_pos.mpr hne
        rw [if_neg hrest, if_pos (by omega)]
  | succ i ih =>
      intro data cmd hi
      have hd : data ≠ [] := by
        intro h
        subst h
        simp [chunkFrames_nil] at hi
      rw [chunkFrames_cons cmd data hd] at hi ⊢
      simp only [List.length_cons] at hi
      have hi' : i < (chunkFrames ([] : Cmd) (data.drop 4096)).length := by
        omega
      simp only [List.getElem?_cons_succ, List.length_cons]
      rw [ih (data.drop 4096) [] hi']
      simp only [ite_self, Option.some.injEq, Ev.mk.injEq]
      constructor
      · rw [if_neg (by omega : ¬ (i + 1 = 0))]
        by_cases hc : i + 1 < (chunkFrames ([] : Cmd) (data.drop 4096)).length
        · rw [if_pos hc, if_pos (by omega)]
        · rw [if_neg hc, if_neg (by omega)]
      · have h2 : ∀ a b : Nat, a = b →
            List.take 4096 (data.drop a) = List.take 4096 (data.drop b) := by
          intro a b hab
          rw [hab]
        rw [List.drop_drop]
        exact h2 (4096 + 4096 * i) (4096 * (i + 1)) (by ring)

theorem b64encode_ne_nil (l : List Nat) (h : l ≠ []) : b64encode l ≠ [] := by
  match l with
  | a :: b :: c :: rest => simp [b64encode]
  | [a, b] => simp [b64encode]
  | [a] => simp [b64encode]
  | [] => exact absurd rfl h

theorem dictGet_dictSet_self (c : Cmd) (k : String) (v : V) :
    dictGet (dictSet c k v) k = some v := by
  induction c with
  | nil => simp [dictSet, dictGet]
  | cons kv rest ih =>
      obtain ⟨k', v'⟩ := kv
      by_cases hk : k' = k
      · simp [dictSet, dictGet, hk]
      · simp [dictSet, dictGet, hk, ih]

/-! ## Claim C4: chunked transfer framing -/

/-- Claim C4: for every non-empty payload, write_chunked emits exactly
ceil(encodedLen/4096) frames, where encodedLen is the length of the base64
encoding of the (zlib-compressed unless the format key equals 100) payload;
the more-chunks flag m is 1 on every frame except the last (0 there); the
first frame carries the full descriptor command (with the compression
marker o=z when compression was applied) plus m, while every subsequent
frame carries only the m flag. -/
theorem claim_C4_write_chunked (compress : List Nat → List Nat) (cmd : Cmd)
    (data : List Nat) (hne : data ≠ [])
    (hcomp : dictGet cmd "f" ≠ some (V.i 100) → compress data ≠ []) :
    let enc := b64encode (if dictGet cmd "f" = some (V.i 100) then data
                          else compress data)
    let cmd1 := if dictGet cmd "f" = some (V.i 100) then cmd
                else dictSet cmd "o" (V.s "z")
    let frames := write_chunked compress cmd data
    frames.length = (enc.length + 4095) / 4096 ∧
    1 ≤ frames.length ∧
    (∀ i, i < frames.length →
      frames[i]? = some ⟨dictSet (if i = 0 then cmd1 else []) "m"
          (V.i (if i + 1 < frames.length then 1 else 0)),
        some ((enc.drop (4096 * i)).take 4096)⟩) ∧
    (∀ i, i < frames.length → ∀ c pl, frames[i]? = some ⟨c, pl⟩ →
      dictGet c "m" = some (V.i (if i + 1 < frames.length then 1 else 0))) := by
  intro enc cmd1 frames
  have hframes : frames = chunkFrames cmd1 enc := by
    simp only [frames, write_chunked, enc, cmd1]
    by_cases hf : dictGet cmd "f" = some (V.i 100) <;> simp [hf]
  have hencne : enc ≠ [] := by
    simp only [enc]
    by_cases hf : dictGet cmd "f" = some (V.i 100)
    · simp only [hf, if_pos rfl, if_true]
      exact b64encode_ne_nil data hne
    · simp only [hf, if_false, if_neg hf]
      exact b64encode_ne_nil _ (hcomp hf)
  have hlen : frames.length = (enc.length + 4095) / 4096 := by
    rw [hframes, chunkFrames_length]
  refine ⟨hlen, ?_, ?_, ?_⟩
  · have : enc.length ≠ 0 := fun hz => hencne (List.eq_nil_of_length_eq_zero hz)
    omega
  · intro i hi
    rw [hframes] at hi ⊢
    exact chunkFrames_getElem i enc cmd1 hi
  · intro i hi c pl hc
    rw [hframes] at hi hc
    rw [chunkFrames_getElem i enc cmd1 hi] at hc
    have hcmd : dictSet (if i = 0 then cmd1 else []) "m"
        (V.i (if i + 1 < (chunkFrames cmd1 enc).length then 1 else 0)) = c :=
      congrArg Ev.cmd (Option.some.inj hc)
    rw [← hcmd, dictGet_dictSet_self, hframes]

theorem claim_C4_witness :
    (([1] : List Nat) ≠ [] ∧
     (dictGet [("f", V.i 24)] "f" ≠ some (V.i 100) →
       id ([1] : List Nat) ≠ [])) ∧
    (let enc := b64encode (if dictGet [("f", V.i 24)] "f" = some (V.i 100)
                           then ([1] : List Nat) else id [1])
     let cmd1 := if dictGet [("f", V.i 24)] "f" = some (V.i 100)
                 then [("f", V.i 24)] else dictSet [("f", V.i 24)] "o" (V.s "z")
     let frames := write_chunked id [("f", V.i 24)] [1]
     frames.length = (enc.length + 4095) / 4096 ∧
     1 ≤ frames.length ∧
     (∀ i, i < frames.length →
       frames[i]? = some ⟨dictSet (if i = 0 then cmd1 else []) "m"
           (V.i (if i + 1 < frames.length then 1 else 0)),
         some ((enc.drop (4096 * i)).take 4096)⟩) ∧
     (∀ i, i < frames.length → ∀ c pl, frames[i]? = some ⟨c, pl⟩ →
       dictGet c "m" = some (V.i (if i + 1 < frames.length then 1 else 0)))) :=
  ⟨⟨by decide, fun _ => by decide⟩,
   claim_C4_write_chunked id [("f", V.i 24)] [1] (by decide)
     (fun _ => by decide)⟩

/-! ## Claim C6: logical page navigation with a first-page offset -/

/-- Claim C6: for a 10-page document with first_page_offset 5, requesting
logical page 5 goes to physical index 0, logical page 14 goes to physical
index 9 (the last page), and every logical request ends clamped into
[0, 9] by goto_page. -/
theorem claim_C6_logical_navigation :
    (doc6.goto_logical_page 5).page = 0 ∧
    (doc6.goto_logical_page 14).page = 9 ∧
    ∀ q : Int, 0 ≤ (doc6.goto_logical_page q).page ∧
      (doc6.goto_logical_page q).page ≤ 9 := by
  refine ⟨by decide, by decide, ?_⟩
  intro q
  simp only [doc6, Document.init, Document.goto_logical_page,
    Document.logical_to_page, Document.goto_page]
  split_ifs <;> simp_all <;> omega

/-! ## Claim C8: goto_logical_page(0) treats 0 as unset -/

/-- Claim C8: logical_to_page treats the argument 0 as unset and
substitutes the current page, so goto_logical_page(0) moves to
clamp(currentPage - first_page_offset, 0, lastPage). -/
theorem claim_C8_goto_logical_zero (d : Document) (h : 0 ≤ d.pages) :
    d.logical_to_page (some 0) = d.page - d.first_page_offset ∧
    (d.goto_logical_page 0).page =
      max 0 (min (d.page - d.first_page_offset) d.pages) := by
  constructor
  · simp [Document.logical_to_page]
  · simp only [Document.goto_logical_page, Document.logical_to_page,
      Document.goto_page]
    split_ifs <;> simp_all <;> omega

theorem claim_C8_witness :
    0 ≤ d8.pages ∧
    (d8.logical_to_page (some 0) = d8.page - d8.first_page_offset ∧
     (d8.goto_logical_page 0).page =
       max 0 (min (d8.page - d8.first_page_offset) d8.pages)) :=
  ⟨by decide, claim_C8_goto_logical_zero d8 (by decide)⟩

/-! ## Claim C10: goto_chap past the end of the table of contents -/

/-- Claim C10: goto_chap clamps its argument to at most len(toc); for any
argument at or beyond len(toc), and for every argument when the toc is
empty, the lookup fails and the fallback navigates to physical page 0, with
the chapter recorded as the clamped value and no error escaping. -/
theorem claim_C10_goto_chap_overflow (d : Document) (n : Int)
    (hpages : 0 ≤ d.pages) (hn : (d.toc.length : Int) ≤ n) :
    ((d.goto_chap n).chapter = (d.toc.length : Int) ∧
     (d.goto_chap n).page = 0) ∧
    ∀ m : Int, (({ d with toc := [] } : Document).goto_chap m).page = 0 := by
  have hlen0 : (0 : Int) ≤ (d.toc.length : Int) := Int.ofNat_nonneg _
  constructor
  · have hclamp : (if n > (d.toc.length : Int) then (d.toc.length : Int)
        else if n < 0 then 0 else n) = (d.toc.length : Int) := by
      split_ifs <;> omega
    have hget : d.toc.get? ((d.toc.length : Int)).toNat = none := by
      simp [List.get?_eq_none]
    simp only [Document.goto_chap, hclamp, hget, Document.goto_page]
    split_ifs <;> constructor <;> simp_all <;> omega
  · intro m
    have hget : ∀ k : Int, ([] : List Toc).get? k.toNat = none := by simp
    simp only [Document.goto_chap, hget, Document.goto_page]
    split_ifs <;> simp_all <;> omega

theorem claim_C10_witness :
    (0 ≤ doc6.pages ∧ ((doc6.toc.length : Int) ≤ 3)) ∧
    (((doc6.goto_chap 3).chapter = (doc6.toc.length : Int) ∧
      (doc6.goto_chap 3).page = 0) ∧
     ∀ m : Int, (({ doc6 with toc := [] } : Document).goto_chap m).page = 0) :=
  ⟨⟨by decide, by decide⟩, claim_C10_goto_chap_overflow doc6 3 (by decide) (by decide)⟩

/-! ## Claim C7: overlay list navigation

The claim says next/prev move the selection by the active numeric count
prefix.  The overlay loops have no count mechanism at all: digit keys fall
through unrecognized and next/prev move by exactly one.  The counterexample
presses the digit 3 and then next in a 5-item overlay: the selection lands
on index 1, not 3. -/

/-- Counterexample to claim C7 as stated: in the table-of-contents overlay
(5 items, window height 10), pressing the digit key 3 and then a next key
moves the selection from index 0 to index 1, not to index 3 as a count
prefix of 3 would demand. -/
theorem claim_C7_counterexample :
    (overlay_run 116 true 5 10 ⟨0, 0⟩ [51, 106]).index = 1 ∧
    ¬ (overlay_run 116 true 5 10 ⟨0, 0⟩ [51, 106]).index = 3 := by
  decide

/-- Claim C7 as amended: in every overlay list browser a next or prev key
event moves the selected index by exactly one (numeric prefixes are not
consumed there), clamped to the list bounds [0, length-1]. -/
theorem claim_C7_overlay_moves_by_one (closeKey : Int) (canOpen : Bool)
    (len : Nat) (h : Int) (st : OverlayState) (key : Int)
    (hck : closeKey = 116 ∨ closeKey = 77 ∨ closeKey = 117)
    (hk : key ∈ NEXT_PAGE ∨ key ∈ PREV_PAGE) :
    ∃ st', overlay_step closeKey canOpen len h st key = OvOut.cont st' ∧
      st'.index = (if key ∈ NEXT_PAGE then min ((len : Int) - 1) (st.index + 1)
                   else max 0 (st.index - 1)) ∧
      (1 ≤ len → 0 ≤ st.index → st.index ≤ (len : Int) - 1 →
        0 ≤ st'.index ∧ st'.index ≤ (len : Int) - 1) := by
  have hknum : key = 106 ∨ key = 258 ∨ key = 32 ∨ key = 107 ∨ key = 259 := by
    simp only [NEXT_PAGE, PREV_PAGE, List.mem_cons, List.mem_singleton,
      List.not_mem_nil, or_false] at hk
    tauto
  rcases hck with rfl | rfl | rfl <;> rcases hknum with rfl | rfl | rfl | rfl | rfl <;>
    · norm_num [overlay_step, REFRESH, QUIT, NEXT_PAGE, PREV_PAGE, OPEN,
        overlayAdjust]
      omega

theorem claim_C7_witness :
    (((116 : Int) = 116 ∨ (116 : Int) = 77 ∨ (116 : Int) = 117) ∧
     ((106 : Int) ∈ NEXT_PAGE ∨ (106 : Int) ∈ PREV_PAGE)) ∧
    ∃ st', overlay_step 116 true 5 10 ⟨0, 0⟩ 106 = OvOut.cont st' ∧
      st'.index = (if (106 : Int) ∈ NEXT_PAGE
                   then min ((5 : Int) - 1) ((0 : Int) + 1)
                   else max 0 ((0 : Int) - 1)) ∧
      (1 ≤ 5 → 0 ≤ (0 : Int) → (0 : Int) ≤ (5 : Int) - 1 →
        0 ≤ st'.index ∧ st'.index ≤ (5 : Int) - 1) :=
  ⟨⟨by decide, by decide⟩,
   claim_C7_overlay_moves_by_one 116 true 5 10 ⟨0, 0⟩ 106
     (by decide) (by decide)⟩

/-! ## Claim C5: the two-key "go to start" chord

The program's own shortcut help says `gg` goes to the beginning of the
document, but the dispatch tests `stack[0] in keys.GOTO`, and `stack[0]` is
always the sentinel 0 pushed at reset, so the chord never resolves: two
presses of the designated key leave the page unchanged and merely grow the
chord buffer. -/

/-- Claim C5 evaluated on the code: from page 3 of a 5-page document,
pressing the designated "go to start" key (g, code 103) twice leaves the
current page at 3 instead of navigating to page 0; the chord buffer ends as
[0, 103, 103] and is never resolved. -/
theorem claim_C5_gg_chord_never_fires :
    ((view_step trivOracle st5 103).bind
        (fun st => view_step trivOracle st 103)).map
      (fun st => (st.doc.page, st.stack)) = some (3, [0, 103, 103]) := by
  decide

/-! ## Claim C2: display-setting toggles mark every page stale -/

/-- Claim C2: for every key event in the main view loop that toggles
rotation (either direction), autocrop, alpha, invert, or tint, every entry
of the page-state table is stale immediately after the event is handled
(i.e. in the dispatcher state passed to the next display_page call). -/
theorem claim_C2_toggles_mark_all_stale (orc : Oracle) (st : ViewState)
    (key : Int)
    (hk : key ∈ ROTATE_CW ∨ key ∈ ROTATE_CCW ∨ key ∈ TOGGLE_AUTOCROP ∨
          key ∈ TOGGLE_ALPHA ∨ key ∈ TOGGLE_INVERT ∨ key ∈ TOGGLE_TINT) :
    ∃ st', view_step orc st key = some st' ∧
      ∀ ps ∈ st'.doc.page_states, ps.stale = true := by
  have hknum : key = 114 ∨ key = 82 ∨ key = 99 ∨ key = 97 ∨ key = 105 ∨
      key = 100 := by
    simp only [ROTATE_CW, ROTATE_CCW, TOGGLE_AUTOCROP, TOGGLE_ALPHA,
      TOGGLE_INVERT, TOGGLE_TINT, List.mem_singleton] at hk
    tauto
  rcases hknum with rfl | rfl | rfl | rfl | rfl | rfl <;>
    · norm_num [view_step, REFRESH, QUIT, GOTO_PAGE, NEXT_PAGE,
        PREV_PAGE, NEXT_CHAP, PREV_CHAP, GOTO, ROTATE_CW, ROTATE_CCW,
        TOGGLE_AUTOCROP, TOGGLE_ALPHA, TOGGLE_INVERT, TOGGLE_TINT]
      exact mark_all_stale_spec _

/-! ## Claim C3: repeated display of the same page transmits once -/

/-- Claim C3: calling display_page twice consecutively for the same page
with no intervening change (same document, terminal geometry and render
inputs, the page stale at the first call as it is after opening or after
any invalidation) performs the render-and-transmit step exactly once: the
first call renders, clears the stale flag, and the second call observes
stale=false, skips retransmission, and sends no image payload at all. -/
theorem claim_C3_display_idempotent (compress : List Nat → List Nat)
    (d : Document) (scr : Screen) (inp : DPIn) (p : Nat)
    (hp : p < d.page_states.length)
    (hstale : (d.page_states.getD p (Page_State.init p)).stale = true)
    (res1 : DPRes)
    (h1 : d.display_page compress scr inp p true = DPOut.ok res1) :
    res1.rendered = true ∧
    (res1.doc.page_states.getD p (Page_State.init p)).stale = false ∧
    ∀ res2, res1.doc.display_page compress scr inp p true = DPOut.ok res2 →
      res2.rendered = false ∧ ∀ e ∈ res2.events, e.payload = none := by
  obtain ⟨hr1, hl1, hs1, he1⟩ :=
    display_page_spec compress d scr inp p true res1 h1
  refine ⟨hr1.trans hstale, hs1 hp, ?_⟩
  intro res2 h2
  obtain ⟨hr2, hl2, hs2, he2⟩ :=
    display_page_spec compress res1.doc scr inp p true res2 h2
  have hrf : res2.rendered = false := hr2.trans (hs1 hp)
  exact ⟨hrf, he2 hrf⟩

theorem claim_C3_witness :
    (1 < d1doc.page_states.length ∧
     (d1doc.page_states.getD 1 (Page_State.init 1)).stale = true ∧
     d1doc.display_page id scr1 inpOK 1 true = DPOut.ok res3) ∧
    (res3.rendered = true ∧
     (res3.doc.page_states.getD 1 (Page_State.init 1)).stale = false ∧
     ∀ res2, res3.doc.display_page id scr1 inpOK 1 true = DPOut.ok res2 →
       res2.rendered = false ∧ ∀ e ∈ res2.events, e.payload = none) :=
  ⟨⟨by decide, by decide, rfl⟩,
   claim_C3_display_idempotent id d1doc scr1 inpOK 1 (by decide) (by decide)
     res3 rfl⟩

/-! ## Claim C9: every page state is born stale -/

/-- Claim C9: every Page_State is constructed with stale=true and document
open creates one for every page index, so the first display_page call for
any page after opening always runs the full render-and-transmit step. -/
theorem claim_C9_fresh_pages_stale (pageCount : Nat) (toc : List Toc)
    (i : Nat) (hi : i < pageCount) :
    ((Document.init pageCount toc).page_states.getD i
        (Page_State.init i)).stale = true ∧
    ∀ (compress : List Nat → List Nat) (scr : Screen) (inp : DPIn)
      (res : DPRes),
      (Document.init pageCount toc).display_page compress scr inp i true =
        DPOut.ok res →
      res.rendered = true := by
  have hgd : (Document.init pageCount toc).page_states.getD i
      (Page_State.init i) = Page_State.init i := by
    simp only [Document.init]
    rw [List.getD_eq_getElem?_getD, List.getElem?_map, List.getElem?_range hi]
    rfl
  refine ⟨by rw [hgd]; rfl, ?_⟩
  intro compress scr inp res h
  obtain ⟨hr, -, -, -⟩ := display_page_spec compress _ scr inp i true res h
  rw [hr, hgd]
  rfl

theorem claim_C9_witness :
    1 < 2 ∧
    (((Document.init 2 []).page_states.getD 1 (Page_State.init 1)).stale =
        true ∧
     ∀ (compress : List Nat → List Nat) (scr : Screen) (inp : DPIn)
       (res : DPRes),
       (Document.init 2 []).display_page compress scr inp 1 true =
         DPOut.ok res →
       res.rendered = true) :=
  ⟨by decide, claim_C9_fresh_pages_stale 2 [] 1 (by decide)⟩

/-! ## Claim C1: confirmed-display failure handling

The claim says a failed confirmed display leaves the page stale (after
display_page returns) and the previous page visible.  On the real code
neither holds as stated: the previous page is cleared before the confirmed
display is even issued, and on failure display_page never returns at all —
the failure branch sets the stale flag and then raises NameError on the
undefined name `bar`, crashing the viewer (the closing unconditional
`stale = False` line, which would otherwise erase the flag, is never
reached on this path). -/

/-- Claim C1 evaluated on the code at a failing input: displaying stale
page index 1 (previous page 0) with a terminated response lacking OK, the
call does not return but raises NameError at the undefined `bar`; at the
raise the page's stale flag is true, and the emitted trace has already
transmitted the image, cleared previous page 0, and issued the confirmed
display — the clear of the previous page precedes the failed display, so
the previous page does not remain visible. -/
theorem claim_C1_failure_raises_nameError :
    write_gr_cmd_with_response inp1.resp = some false ∧
    ∃ res, d1doc.display_page id scr1 inp1 1 true = DPOut.nameError res ∧
      (res.doc.page_states.getD 1 (Page_State.init 1)).stale = true ∧
      res.events.map Ev.cmd =
        [[("i", V.i 2), ("t", V.s "d"), ("s", V.i 1), ("v", V.i 1),
          ("f", V.i 24), ("o", V.s "z"), ("m", V.i 0)],
         clear_page_cmd 0,
         [("a", V.s "p"), ("i", V.i 2), ("z", V.i (-1))]] :=
  ⟨rfl, _, rfl, rfl, rfl⟩

theorem claim_C2_witness :
    ((114 : Int) ∈ ROTATE_CW ∨ (114 : Int) ∈ ROTATE_CCW ∨
     (114 : Int) ∈ TOGGLE_AUTOCROP ∨ (114 : Int) ∈ TOGGLE_ALPHA ∨
     (114 : Int) ∈ TOGGLE_INVERT ∨ (114 : Int) ∈ TOGGLE_TINT) ∧
    ∃ st', view_step trivOracle st5 114 = some st' ∧
      ∀ ps ∈ st'.doc.page_states, ps.stale = true :=
  ⟨by decide, claim_C2_toggles_mark_all_stale trivOracle st5 114 (by decide)⟩

end Termpdf
